import Mathlib

/-!
Shallow embedding of the MCP Lambda protocol handler
(`awslabs/mcp_lambda_handler/mcp_lambda_handler.py`): the tool decorator
(schema synthesis, name derivation, read-only classification), the request
dispatcher `handle_request`, and the error/response codec.  Parsed Python
JSON values are modelled by the inductive `JSON`; Python dicts are modelled
by insertion-ordered association lists with Python's overwrite semantics.
The session store and the pydantic request/response types live in modules
that are not part of the sources (`session.py`, `types.py`); those parts are
modelled from the spec and marked as such.
-/

/-- A parsed JSON value, as produced by Python's `json.loads`.  Objects are
insertion-ordered association lists (Python dicts); duplicate keys cannot
occur in a parsed object.  JSON numbers are modelled as integers (no claim
involves floating point). -/
inductive JSON where
  | null
  | bool (b : Bool)
  | num (n : Int)
  | str (s : String)
  | arr (elems : List JSON)
  | obj (fields : List (String × JSON))

/-- Python dict lookup `d.get(k)` on an association list whose keys are
unique (parsed JSON objects, registry dicts): first match. -/
def dictGet {α : Type} (d : List (String × α)) (k : String) : Option α :=
  match d with
  | [] => none
  | kv :: rest => if kv.1 == k then some kv.2 else dictGet rest k

/-- Python dict assignment `d[k] = v`: replace in place if the key exists
(keeping its position), otherwise append. -/
def dictSet {α : Type} (d : List (String × α)) (k : String) (v : α) :
    List (String × α) :=
  if d.any (fun kv => kv.1 == k) then
    d.map (fun kv => if kv.1 == k then (k, v) else kv)
  else d ++ [(k, v)]

/-- Python membership test `k in d`. -/
def hasKey {α : Type} (d : List (String × α)) (k : String) : Bool :=
  (dictGet d k).isSome

/-- Python dict built by a comprehension with possibly colliding keys:
a later entry overwrites an earlier one, so lookup returns the last match. -/
def dictGetLast (d : List (String × String)) (k : String) : Option String :=
  d.foldl (fun acc kv => if kv.1 == k then some kv.2 else acc) none

/-- Python `str.lower` for the ASCII identifiers and header names used by
the handler. -/
def pyLowerStr (s : String) : String :=
  String.mk (s.data.map Char.toLower)

/-- Python `str.split(sep)` for a one-character separator: `""` splits to
`[""]`, adjacent separators produce empty segments. -/
def splitOnChar (sep : Char) : List Char → List (List Char)
  | [] => [[]]
  | c :: cs =>
    let r := splitOnChar sep cs
    if c == sep then [] :: r
    else
      match r with
      | g :: gs => (c :: g) :: gs
      | [] => [[c]]

/-- Python `str.capitalize` on a segment (ASCII): first character
uppercased, the remaining characters lowercased. -/
def pyCapitalizeL (l : List Char) : List Char :=
  match l with
  | [] => []
  | c :: cs => c.toUpper :: cs.map Char.toLower

/-- Tool-name derivation from the decorated function's `__name__`
(mcp_lambda_handler.py lines 168-172): split on underscores, keep the first
segment unchanged, `capitalize` every later segment, and join. -/
def deriveToolName (funcName : String) : String :=
  match splitOnChar '_' funcName.data with
  | [] => ""
  | first :: rest => String.mk (first ++ (rest.map pyCapitalizeL).flatten)

/-- Python `str.strip()` (whitespace on both ends). -/
def trimL (l : List Char) : List Char :=
  ((l.dropWhile Char.isWhitespace).reverse.dropWhile Char.isWhitespace).reverse

/-- Python `str.split(sep, 1)` for a one-character separator, assuming the
separator occurs: the text before the first occurrence and the text after. -/
def splitOnceChar (sep : Char) : List Char → (List Char × List Char)
  | [] => ([], [])
  | c :: cs =>
    if c == sep then ([], cs)
    else
      let r := splitOnceChar sep cs
      (c :: r.1, r.2)

/-- The first paragraph of a docstring: `doc.split('\n\n')[0]`, i.e. the
text before the first blank line. -/
def takeFirstParagraph : List Char → List Char
  | [] => []
  | '\n' :: '\n' :: _ => []
  | c :: cs => c :: takeFirstParagraph cs

/-- The docstring `Args:` block parser of the tool decorator
(mcp_lambda_handler.py lines 189-202): after a line whose stripped form
starts with `Args:`, each line containing a colon contributes
`name.strip() -> desc.strip()`, until a blank line or a `Returns:` line. -/
def parseArgsBlock : List (List Char) → Bool → List (String × String) →
    List (String × String)
  | [], _, acc => acc
  | line :: rest, inArgs, acc =>
    let stripped := trimL line
    if ("Args:".data).isPrefixOf stripped then
      parseArgsBlock rest true acc
    else if inArgs then
      if stripped.isEmpty || ("Returns:".data).isPrefixOf stripped then acc
      else if line.any (fun c => c == ':') then
        let nd := splitOnceChar ':' line
        parseArgsBlock rest inArgs
          (dictSet acc (String.mk (trimL nd.1)) (String.mk (trimL nd.2)))
      else parseArgsBlock rest inArgs acc
    else parseArgsBlock rest inArgs acc

/-- A Python type annotation, as inspected by the decorator's
`get_type_schema` (primitives, Enum subclasses, `Union`/`Optional`,
subscripted `Dict`/`List` generics, `None`, and any other class carrying a
`__name__`).  Enum member values are modelled as strings, matching the
string-valued enums used with this handler. -/
inductive PyType where
  | intT
  | floatT
  | boolT
  | strT
  | noneT
  | enumT (clsName : String) (values : List String)
  | unionT (args : List PyType)
  | dictT (args : Option (PyType × PyType))
  | listT (arg : Option PyType)
  | classT (clsName : String)

/-- Python `getattr(t, '__name__', '')`: generic aliases (`Union`, `Dict`,
`List`) have no `__name__`. -/
def pyTypeName : PyType → String
  | .intT => "int"
  | .floatT => "float"
  | .boolT => "bool"
  | .strT => "str"
  | .noneT => "NoneType"
  | .enumT n _ => n
  | .unionT _ => ""
  | .dictT _ => ""
  | .listT _ => ""
  | .classT n => n

/-- Decision used below: everything except `NoneType` survives the
`arg is not type(None)` filter in the Union branch. -/
def isNoneType : PyType → Bool
  | .noneT => true
  | _ => false

mutual

/-- `get_type_schema` (mcp_lambda_handler.py lines 204-252): the JSON-Schema
fragment synthesized for one annotation.  Primitives map to their JSON types;
Enums to a string schema with an `enum` list; a Union keeps its single
non-`None` alternative or falls back to string; subscripted `Dict`/`List`
recurse into the value/element type; anything else (including `None` and
bare classes, whose `get_origin` is `None`) falls back to `{type: string}`. -/
def getTypeSchema : PyType → JSON
  | .intT => JSON.obj [("type", JSON.str "integer")]
  | .floatT => JSON.obj [("type", JSON.str "number")]
  | .boolT => JSON.obj [("type", JSON.str "boolean")]
  | .strT => JSON.obj [("type", JSON.str "string")]
  | .enumT _ vs =>
    JSON.obj [("type", JSON.str "string"), ("enum", JSON.arr (vs.map JSON.str))]
  | .noneT => JSON.obj [("type", JSON.str "string")]
  | .classT _ => JSON.obj [("type", JSON.str "string")]
  | .unionT args => unionSchema args none
  | .dictT none =>
    JSON.obj [("type", JSON.str "object"), ("additionalProperties", JSON.bool true)]
  | .dictT (some kv) =>
    JSON.obj [("type", JSON.str "object"), ("additionalProperties", getTypeSchema kv.2)]
  | .listT none =>
    JSON.obj [("type", JSON.str "array"), ("items", JSON.obj [])]
  | .listT (some a) =>
    JSON.obj [("type", JSON.str "array"), ("items", getTypeSchema a)]

/-- Helper realizing the Union branch of `get_type_schema`: scan the
alternatives, dropping `NoneType`; if exactly one non-`None` alternative
remains its schema is used, otherwise the string fallback.  The accumulator
holds the schema of the single non-`None` alternative seen so far. -/
def unionSchema : List PyType → Option JSON → JSON
  | [], none => JSON.obj [("type", JSON.str "string")]
  | [], some s => s
  | t :: rest, acc =>
    if isNoneType t then unionSchema rest acc
    else
      match acc with
      | none => unionSchema rest (some (getTypeSchema t))
      | some _ => JSON.obj [("type", JSON.str "string")]

end

/-- A Python value passed to a tool callable as a keyword argument: a parsed
JSON value, an Enum member produced by the dispatcher's conversion step, or
an opaque object produced by a pydantic default factory. -/
inductive PyVal where
  | json (j : JSON)
  | enumMember (clsName : String) (value : String)
  | opaqueVal (tag : String)

/-- The value returned by invoking a tool callable: either a plain value or
an awaitable.  Only the `str()` image of the (awaited) value is observable
through the protocol, so the model carries that string; awaiting an
awaitable may itself raise. -/
inductive PyResult where
  | value (s : String)
  | awaitable (awaited : Except String String)

/-- Driving a result to completion (mcp_lambda_handler.py lines 499-502):
`result = tool_func(...); if inspect.isawaitable(result): result =
asyncio.run(result)`, then `str(result)`. -/
def resolveResult : PyResult → Except String String
  | .value s => .ok s
  | .awaitable (.ok s) => .ok s
  | .awaitable (.error e) => .error e

/-- The default declared for a parameter in the callable's signature:
`inspect._empty` (no default), a plain literal, or a pydantic `FieldInfo`
wrapper carrying an optional default factory result and an optional literal
default (`none` models `PydanticUndefined`). -/
inductive PyDefault where
  | empty
  | plain (v : PyVal)
  | fieldInfo (factoryResult : Option PyVal) (defaultValue : Option PyVal)

/-- pydantic `FieldInfo.is_required()`: true iff the field declares neither
a default value nor a default factory (library semantics). -/
def fieldInfoIsRequired (factoryResult defaultValue : Option PyVal) : Bool :=
  factoryResult.isNone && defaultValue.isNone

/-- One declared parameter of a tool callable: its name, its annotation if
any (`get_type_hints` only reports annotated parameters), and its default. -/
structure PyParam where
  name : String
  hint : Option PyType
  default : PyDefault

/-- A Python callable registered as a tool: `__name__`, the result of
`inspect.getdoc` (empty string when absent), the signature's parameters in
declaration order, and the behaviour of invoking it with keyword arguments
(`.error` models an exception whose `str()` is the carried message). -/
structure PyFunc where
  name : String
  doc : String
  params : List PyParam
  run : List (String × PyVal) → Except String PyResult

/-- `hints.get(name)`: the annotation of the named parameter, if any. -/
def hintOf (f : PyFunc) (n : String) : Option PyType :=
  match f.params.find? (fun p => p.name == n) with
  | some p => p.hint
  | none => none

/-- `is_mcp_context_param` (mcp_lambda_handler.py lines 254-259): the
parameter is named `ctx` and its annotation's `__name__` is `Context`. -/
def isMcpContextParam (paramName : String) (paramType : PyType) : Bool :=
  paramName == "ctx" && pyTypeName paramType == "Context"

/-- The fixed verb list of `is_read_only_tool_name`
(mcp_lambda_handler.py lines 261-276). -/
def readOnlyVerbList : List String :=
  ["list", "get", "search", "tail", "count", "check", "validate",
   "discover", "analyze", "diagnose", "lint"]

/-- `is_read_only_tool_name(name)`: Python `name.startswith(tuple)`, i.e.
the name starts with at least one of the verbs. -/
def isReadOnlyToolName (n : String) : Bool :=
  readOnlyVerbList.any (fun v => v.data.isPrefixOf n.data)

/-- The tool descriptor built by the decorator (mcp_lambda_handler.py lines
299-304), kept structurally: `name`, `description`, the `inputSchema`
properties and required list, and the `annotations.readOnlyHint` flag. -/
structure ToolSchema where
  name : String
  description : String
  properties : List (String × JSON)
  required : List String
  readOnlyHint : Bool

/-- Insert a key into a schema object (`param_schema['description'] = ...`). -/
def addObjKey (schema : JSON) (k : String) (v : JSON) : JSON :=
  match schema with
  | .obj kvs => .obj (dictSet kvs k v)
  | other => other

/-- The property/required loop of the decorator (mcp_lambda_handler.py lines
278-296): walk the annotated parameters in order, skip the internal context
parameter, attach the docstring description if present, and mark the
parameter required when it has no default or a pydantic field marked
required. -/
def buildPropsReq (f : PyFunc) (argDescs : List (String × String)) :
    List (String × PyType) → List (String × JSON) × List String →
    List (String × JSON) × List String
  | [], acc => acc
  | (pname, ptype) :: rest, acc =>
    if isMcpContextParam pname ptype then buildPropsReq f argDescs rest acc
    else
      let sch := getTypeSchema ptype
      let sch :=
        match dictGet argDescs pname with
        | some d => addObjKey sch "description" (JSON.str d)
        | none => sch
      let props := dictSet acc.1 pname sch
      let req :=
        match f.params.find? (fun p => p.name == pname) with
        | some p =>
          match p.default with
          | .empty => acc.2 ++ [pname]
          | .fieldInfo fr dv =>
            if fieldInfoIsRequired fr dv then acc.2 ++ [pname] else acc.2
          | .plain _ => acc.2
        | none => acc.2
      buildPropsReq f argDescs rest (props, req)

/-- The schema synthesis performed by the `tool()` decorator
(mcp_lambda_handler.py lines 166-304): derive the camelCase tool name, take
the docstring's first paragraph as description, parse the `Args:` block,
build the properties/required lists from the annotated parameters, and
classify read-only-ness from the lowercased tool name. -/
def buildSchema (f : PyFunc) : ToolSchema :=
  let toolName := deriveToolName f.name
  let argDescs := parseArgsBlock (splitOnChar '\n' f.doc.data) false []
  let hintsList := f.params.filterMap (fun p => p.hint.map (fun t => (p.name, t)))
  let pr := buildPropsReq f argDescs hintsList ([], [])
  { name := toolName
    description := String.mk (takeFirstParagraph f.doc.data)
    properties := pr.1
    required := pr.2
    readOnlyHint := isReadOnlyToolName (pyLowerStr toolName) }

/-- Join strings with a separator. -/
def joinSep (sep : String) : List String → String
  | [] => ""
  | [x] => x
  | x :: xs => x ++ sep ++ joinSep sep xs

/-- Python `repr` of a str containing printable ASCII: single-quoted with
backslash and quote escaped, switching to double quotes when the text holds
a single quote but no double quote (control-character escapes are not
modelled; no claim evaluates `repr` on such data). -/
def pyReprStr (s : String) : String :=
  let sq : Char := Char.ofNat 39
  let dq : Char := Char.ofNat 34
  if s.data.any (fun c => c == sq) && !(s.data.any (fun c => c == dq)) then
    String.mk (dq :: (s.data.map (fun c =>
      if c == '\\' then ['\\', '\\'] else [c])).flatten ++ [dq])
  else
    String.mk (sq :: (s.data.map (fun c =>
      if c == '\\' then ['\\', '\\'] else if c == sq then ['\\', sq] else [c])).flatten ++ [sq])

mutual

/-- Python `repr` of a parsed JSON value (`None`, `True`, decimal ints,
quoted strings, bracketed lists, braced dicts). -/
def pyRepr : JSON → String
  | .null => "None"
  | .bool true => "True"
  | .bool false => "False"
  | .num n => toString n
  | .str s => pyReprStr s
  | .arr xs => "[" ++ pyReprList xs ++ "]"
  | .obj kvs => "\x7b" ++ pyReprObj kvs ++ "\x7d"

/-- Comma-joined `repr`s of list elements. -/
def pyReprList : List JSON → String
  | [] => ""
  | [x] => pyRepr x
  | x :: xs => pyRepr x ++ ", " ++ pyReprList xs

/-- Comma-joined `repr(k): repr(v)` pairs of dict entries. -/
def pyReprObj : List (String × JSON) → String
  | [] => ""
  | [(k, v)] => pyReprStr k ++ ": " ++ pyRepr v
  | (k, v) :: kvs => pyReprStr k ++ ": " ++ pyRepr v ++ ", " ++ pyReprObj kvs

end

/-- Python `str` of a parsed JSON value: identity on strings, `repr`
otherwise. -/
def pyStr : JSON → String
  | .str s => s
  | j => pyRepr j

/-- Modelled from the spec: the pluggable session store interface of the
absent `session.py` (`createSession`, `getSession`, `updateSession`,
`deleteSession`; the no-op variant is recognized by an `isinstance` check in
`handle_request`).  `createdId` is the identifier a `create_session` call
returns; `getSession` returns the stored data or `none`; `deleteSession`
reports whether the id existed. -/
structure SessionStoreModel where
  isNoOp : Bool
  createdId : String
  getSession : String → Option (List (String × JSON))
  deleteSession : String → Bool

/-- Modelled from the spec: the no-op session store variant, which enforces
no session tracking — `getSession` always reports a (trivial) session, so
every lookup passes. -/
def noOpSessionStore : SessionStoreModel :=
  { isNoOp := true
    createdId := "session"
    getSession := fun _ => some []
    deleteSession := fun _ => true }

/-- The state of an `MCPLambdaHandler` instance: name/version, the `tools`
schema registry, the `tool_implementations` registry, and the configured
session store. -/
structure Handler where
  name : String
  version : String
  tools : List (String × ToolSchema)
  impls : List (String × PyFunc)
  store : SessionStoreModel

/-- Registration performed by the `tool()` decorator (mcp_lambda_handler.py
lines 306-308): both registries are keyed by the derived tool name. -/
def registerTool (h : Handler) (f : PyFunc) : Handler :=
  let n := deriveToolName f.name
  { h with
    tools := dictSet h.tools n (buildSchema f)
    impls := dictSet h.impls n f }

/-- The parse state of `json.loads(event['body'])`: the `body` key may be
missing (a `KeyError` reaching the top-level handler), the text may fail to
parse (`json.JSONDecodeError`), or parsing succeeds. -/
inductive BodyState where
  | missing
  | invalid
  | parsed (j : JSON)

/-- A Lambda request event: the `headers` map as received (case preserved,
later duplicates overwriting earlier ones), the optional `httpMethod`, and
the body's parse state. -/
structure Event where
  headers : List (String × String)
  httpMethod : Option String
  body : BodyState

/-- A JSON-RPC error object (`types.py` `JSONRPCError`): code and message. -/
structure RPCError where
  code : Int
  message : String

/-- A JSON-RPC response (`types.py` `JSONRPCResponse`), kept structurally:
the echoed id (JSON null models Python `None`), at most one of
result/error, and the optional `errorContent` item texts. -/
structure RPCResponse where
  id : JSON
  result : Option JSON
  error : Option RPCError
  errorContent : Option (List String)

/-- A response body: the empty string (202 notifications) or a serialized
JSON-RPC response. -/
inductive RespBody where
  | empty
  | rpc (r : RPCResponse)

/-- The Lambda response dict: `statusCode`, optional `body`, optional
`headers` (the session-delete branch returns bare `{'statusCode': ...}`). -/
structure Response where
  statusCode : Int
  body : Option RespBody
  headers : Option (List (String × String))

/-- `_error_code_to_http_status` (mcp_lambda_handler.py lines 343-352). -/
def errorCodeToHttpStatus (c : Int) : Int :=
  if c == -32700 then 400
  else if c == -32600 then 400
  else if c == -32601 then 404
  else if c == -32602 then 400
  else if c == -32603 then 500
  else 500

/-- The header dict attached to every codec-built response: content type,
protocol version, and the session id when one is bound (Python truthiness:
an empty id attaches no header). -/
def responseHeaders (sessionId : Option String) : List (String × String) :=
  match sessionId with
  | some s =>
    if s == "" then [("Content-Type", "application/json"), ("MCP-Version", "0.6")]
    else [("Content-Type", "application/json"), ("MCP-Version", "0.6"), ("MCP-Session-Id", s)]
  | none => [("Content-Type", "application/json"), ("MCP-Version", "0.6")]

/-- `_create_error_response` (mcp_lambda_handler.py lines 318-341): build
the error envelope; the HTTP status is the explicit override if truthy,
otherwise the code-to-status map. -/
def createErrorResponse (code : Int) (message : String) (requestId : JSON)
    (errorContent : Option (List String)) (sessionId : Option String)
    (statusOverride : Option Int) : Response :=
  { statusCode :=
      match statusOverride with
      | some sc => if sc == 0 then errorCodeToHttpStatus code else sc
      | none => errorCodeToHttpStatus code
    body := some (.rpc
      { id := requestId
        result := none
        error := some { code := code, message := message }
        errorContent := errorContent })
    headers := some (responseHeaders sessionId) }

/-- `_create_success_response` (mcp_lambda_handler.py lines 354-364). -/
def createSuccessResponse (result : JSON) (requestId : JSON)
    (sessionId : Option String) : Response :=
  { statusCode := 200
    body := some (.rpc
      { id := requestId
        result := some result
        error := none
        errorContent := none })
    headers := some (responseHeaders sessionId) }

/-- Modelled from the spec: the validated `JSONRPCRequest` pydantic model of
the absent `types.py` — `{jsonrpc: "2.0", id: string|null, method: string,
params: object|null}`. -/
structure JSONRPCRequest where
  id : JSON
  method : String
  params : Option (List (String × JSON))

/-- Modelled from the spec: `JSONRPCRequest.model_validate(body)` on a body
that already passed the envelope shape check.  The id must be a string or
null (absent validates as null), the method a string, and params an object,
null, or absent; anything else raises a validation error, which the
top-level handler turns into a generic -32000 envelope. -/
def validateRequest (j : JSON) : Except String JSONRPCRequest :=
  match j with
  | .obj kvs =>
    match dictGet kvs "id", dictGet kvs "method", dictGet kvs "params" with
    | some (.str i), some (.str m), pv =>
      match pv with
      | none => .ok { id := .str i, method := m, params := none }
      | some .null => .ok { id := .str i, method := m, params := none }
      | some (.obj ps) => .ok { id := .str i, method := m, params := some ps }
      | some _ => .error "1 validation error for JSONRPCRequest: params"
    | some .null, some (.str m), pv =>
      match pv with
      | none => .ok { id := .null, method := m, params := none }
      | some .null => .ok { id := .null, method := m, params := none }
      | some (.obj ps) => .ok { id := .null, method := m, params := some ps }
      | some _ => .error "1 validation error for JSONRPCRequest: params"
    | none, some (.str m), pv =>
      match pv with
      | none => .ok { id := .null, method := m, params := none }
      | some .null => .ok { id := .null, method := m, params := none }
      | some (.obj ps) => .ok { id := .null, method := m, params := some ps }
      | some _ => .error "1 validation error for JSONRPCRequest: params"
    | some _, some (.str _), _ => .error "1 validation error for JSONRPCRequest: id"
    | _, _, _ => .error "1 validation error for JSONRPCRequest: method"
  | _ => .error "1 validation error for JSONRPCRequest"

/-- Python truthiness of an optional string (`if session_id:`): present and
non-empty. -/
def truthyOpt (o : Option String) : Bool :=
  match o with
  | some s => !(s == "")
  | none => false

/-- Lowercased header dict of the event (mcp_lambda_handler.py line 376):
`{k.lower(): v for k, v in event.get('headers', {}).items()}`. -/
def lowerHeaders (e : Event) : List (String × String) :=
  e.headers.map (fun kv => (pyLowerStr kv.1, kv.2))

/-- `headers.get('mcp-session-id')`. -/
def extractSessionId (e : Event) : Option String :=
  dictGetLast (lowerHeaders e) "mcp-session-id"

/-- `headers.get('content-type')`. -/
def contentTypeOf (e : Event) : Option String :=
  dictGetLast (lowerHeaders e) "content-type"

/-- The notification check (mcp_lambda_handler.py line 404):
`isinstance(body, dict) and 'id' not in body`. -/
def isNotification : JSON → Bool
  | .obj kvs => !(hasKey kvs "id")
  | _ => false

/-- The basic JSON-RPC envelope check (mcp_lambda_handler.py lines 412-417):
body is a dict, `jsonrpc` equals `"2.0"`, and `method` is present. -/
def envelopeOk : JSON → Bool
  | .obj kvs =>
    (match dictGet kvs "jsonrpc" with
     | some (.str s) => s == "2.0"
     | _ => false) && hasKey kvs "method"
  | _ => false

/-- `request_id = body.get('id') if isinstance(body, dict) else None`
(JSON null models Python `None`). -/
def extractRequestId : JSON → JSON
  | .obj kvs => (dictGet kvs "id").getD .null
  | _ => .null

/-- Python truthiness of `request.params` (`None` and `{}` are falsy). -/
def paramsTruthy : Option (List (String × JSON)) → Bool
  | some (_ :: _) => true
  | _ => false

/-- Modelled from the spec: `InitializeResult.model_dump()` as serialized by
the absent `types.py` — protocol version, server info, and the capability
flags. -/
def initializeResult (h : Handler) : JSON :=
  JSON.obj
    [("protocolVersion", JSON.str "2024-11-05"),
     ("serverInfo", JSON.obj [("name", JSON.str h.name), ("version", JSON.str h.version)]),
     ("capabilities", JSON.obj [("tools", JSON.obj [("list", JSON.bool true), ("call", JSON.bool true)])])]

/-- A registered tool schema rendered back to the JSON dict stored in
`self.tools` (mcp_lambda_handler.py lines 299-304). -/
def schemaToJSON (s : ToolSchema) : JSON :=
  JSON.obj
    [("name", JSON.str s.name),
     ("description", JSON.str s.description),
     ("inputSchema", JSON.obj
       [("type", JSON.str "object"),
        ("properties", JSON.obj s.properties),
        ("required", JSON.arr (s.required.map JSON.str))]),
     ("annotations", JSON.obj [("readOnlyHint", JSON.bool s.readOnlyHint)])]

/-- The `tools/list` result `{'tools': list(self.tools.values())}`. -/
def toolsListResult (h : Handler) : JSON :=
  JSON.obj [("tools", JSON.arr (h.tools.map (fun kv => schemaToJSON kv.2)))]

/-- Modelled from the spec: `TextContent(text=...).model_dump()` of the
absent `types.py` — `{type: "text", text: ...}`. -/
def textContentJSON (t : String) : JSON :=
  JSON.obj [("type", JSON.str "text"), ("text", JSON.str t)]

/-- Python `type(x).__name__` for a parsed JSON value, as it appears in an
`AttributeError` message. -/
def pyJSONTypeName : JSON → String
  | .null => "NoneType"
  | .bool _ => "bool"
  | .num _ => "int"
  | .str _ => "str"
  | .arr _ => "list"
  | .obj _ => "dict"

/-- The test `isinstance(arg_type, type) and issubclass(arg_type, Enum)`:
the Enum class name and member values when the annotation is an Enum
subclass. -/
def isEnumHint : Option PyType → Option (String × List String)
  | some (.enumT cls vs) => some (cls, vs)
  | _ => none

/-- The Enum constructor lookup `arg_type(arg_value)`: the member whose
value equals the argument, if any (modelled for string-valued enums). -/
def enumLookup (vs : List String) (av : JSON) : Option String :=
  match av with
  | .str v => if vs.contains v then some v else none
  | _ => none

/-- The enum-conversion loop of `tools/call` (mcp_lambda_handler.py lines
473-483): arguments whose annotated type is an Enum subclass are converted
to the enum member with that value (`arg_type(arg_value)`, raising
`ValueError` for a non-member); all other arguments pass through. -/
def convertEnumArgs (f : PyFunc) :
    List (String × JSON) → List (String × PyVal) →
    Except String (List (String × PyVal))
  | [], acc => .ok acc
  | (an, av) :: rest, acc =>
    match isEnumHint (hintOf f an) with
    | some (cls, vs) =>
      match enumLookup vs av with
      | some v => convertEnumArgs f rest (dictSet acc an (.enumMember cls v))
      | none => .error (pyRepr av ++ " is not a valid " ++ cls)
    | none => convertEnumArgs f rest (dictSet acc an (.json av))

/-- The pydantic-default unwrapping loop (mcp_lambda_handler.py lines
489-497): for every signature parameter not already bound, a `FieldInfo`
default contributes its factory's value, or its literal default when one is
declared. -/
def unwrapFieldDefaults : List PyParam → List (String × PyVal) →
    List (String × PyVal)
  | [], acc => acc
  | p :: rest, acc =>
    if hasKey acc p.name then unwrapFieldDefaults rest acc
    else
      match p.default with
      | .fieldInfo (some fv) _ => unwrapFieldDefaults rest (dictSet acc p.name fv)
      | .fieldInfo none (some dv) => unwrapFieldDefaults rest (dictSet acc p.name dv)
      | _ => unwrapFieldDefaults rest acc

/-- The argument-preparation steps of `tools/call` (mcp_lambda_handler.py
lines 472-497): iterate `tool_args.items()` (an `AttributeError` when the
supplied `arguments` is not an object), convert enum-typed values, inject
`ctx=None` when the signature declares a `ctx` parameter the caller did not
supply, and unwrap pydantic field defaults. -/
def prepareCallArgs (f : PyFunc) (toolArgs : JSON) :
    Except String (List (String × PyVal)) :=
  match toolArgs with
  | .obj kvs =>
    match convertEnumArgs f kvs [] with
    | .error e => .error e
    | .ok conv =>
      let conv :=
        if f.params.any (fun p => p.name == "ctx") && !(hasKey conv "ctx") then
          dictSet conv "ctx" (.json .null)
        else conv
      .ok (unwrapFieldDefaults f.params conv)
  | other =>
    .error ("\x27" ++ pyJSONTypeName other ++ "\x27 object has no attribute \x27items\x27")

/-- The -32603 envelope rendered by the `tools/call` exception handler
(mcp_lambda_handler.py lines 506-515). -/
def toolExecError (e : String) (requestId : JSON) (sessionId : Option String) :
    Response :=
  createErrorResponse (-32603) ("Error executing tool: " ++ e) requestId
    (some [e]) sessionId none

/-- The guarded invocation of a resolved tool (mcp_lambda_handler.py lines
471-515): prepare the arguments, invoke, drive an awaitable result to
completion, and wrap the stringified value as a single text content item;
any exception in these steps yields the -32603 envelope. -/
def callTool (f : PyFunc) (toolArgs : JSON) (requestId : JSON)
    (sessionId : Option String) : Response :=
  match prepareCallArgs f toolArgs with
  | .error e => toolExecError e requestId sessionId
  | .ok conv =>
    match f.run conv with
    | .error e => toolExecError e requestId sessionId
    | .ok res =>
      match resolveResult res with
      | .error e => toolExecError e requestId sessionId
      | .ok out =>
        createSuccessResponse (JSON.obj [("content", JSON.arr [textContentJSON out])])
          requestId sessionId

/-- Method dispatch after the session check (mcp_lambda_handler.py lines
454-524): `tools/list`, `tools/call` (only with truthy params), `ping`, and
the unknown-method fallback.  A `tools/call` whose tool is registered in
`self.tools` but absent from `self.tool_implementations` hits the in-`try`
`KeyError`, surfacing as a -32603 envelope. -/
def dispatchMethod (h : Handler) (req : JSONRPCRequest)
    (sessionId : Option String) : Response :=
  if req.method == "tools/list" then
    createSuccessResponse (toolsListResult h) req.id sessionId
  else if req.method == "tools/call" && paramsTruthy req.params then
    let ps := req.params.getD []
    let toolName := (dictGet ps "name").getD .null
    let toolArgs := (dictGet ps "arguments").getD (.obj [])
    match toolName with
    | .str s =>
      if hasKey h.tools s then
        match dictGet h.impls s with
        | some f => callTool f toolArgs req.id sessionId
        | none => toolExecError ("\x27" ++ s ++ "\x27") req.id sessionId
      else
        createErrorResponse (-32601) ("Tool \x27" ++ s ++ "\x27 not found")
          req.id none sessionId none
    | other =>
      createErrorResponse (-32601) ("Tool \x27" ++ pyStr other ++ "\x27 not found")
        req.id none sessionId none
  else if req.method == "ping" then
    createSuccessResponse (.obj []) req.id sessionId
  else
    createErrorResponse (-32601) ("Method not found: " ++ req.method)
      req.id none sessionId none

/-- The method handling that follows request validation
(mcp_lambda_handler.py lines 427-524), paired with the
`current_session_id` context value at the return point: `initialize`
creates a session and binds it; any other method is checked against the
session store — a supplied-but-unknown id fails with 404, a missing id
against an enforcing store fails with 400, and otherwise dispatch
proceeds. -/
def afterValidate (h : Handler) (req : JSONRPCRequest)
    (sessionId : Option String) : Response × Option String :=
  if req.method == "initialize" then
    (createSuccessResponse (initializeResult h) req.id (some h.store.createdId),
     some h.store.createdId)
  else
    let ctx := if truthyOpt sessionId then sessionId else none
    if truthyOpt sessionId then
      match h.store.getSession (sessionId.getD "") with
      | none =>
        (createErrorResponse (-32000) "Invalid or expired session" req.id
          none none (some 404), ctx)
      | some _ => (dispatchMethod h req sessionId, ctx)
    else if !(req.method == "initialize") && !h.store.isNoOp then
      (createErrorResponse (-32000) "Session required" req.id
        none none (some 400), ctx)
    else (dispatchMethod h req sessionId, ctx)

/-- An exception escaping to the top-level handler of `handle_request`:
its `str()`, together with the best-effort `request_id` and `session_id`
local variables at the raise point. -/
structure PyErr where
  msg : String
  requestId : JSON
  sessionId : Option String

/-- The body of `handle_request`'s `try` block (mcp_lambda_handler.py lines
371-524), paired with the `current_session_id` context value at each return
point.  Exceptions that the block does not handle itself — a missing `body`
key and a pydantic validation failure — are surfaced as `.error`. -/
def handleRequestCore (h : Handler) (e : Event) :
    Except PyErr (Response × Option String) :=
  let sessionId := extractSessionId e
  let ctx := if truthyOpt sessionId then sessionId else none
  if e.httpMethod == some "DELETE" && truthyOpt sessionId then
    if h.store.deleteSession (sessionId.getD "") then
      .ok ({ statusCode := 204, body := none, headers := none }, ctx)
    else
      .ok ({ statusCode := 404, body := none, headers := none }, ctx)
  else if !(contentTypeOf e == some "application/json") then
    .ok (createErrorResponse (-32700) "Unsupported Media Type" .null none none none, ctx)
  else
    match e.body with
    | .missing => .error { msg := "\x27body\x27", requestId := .null, sessionId := sessionId }
    | .invalid => .ok (createErrorResponse (-32700) "Parse error" .null none none none, ctx)
    | .parsed body =>
      let requestId := extractRequestId body
      if isNotification body then
        .ok ({ statusCode := 202, body := some .empty,
               headers := some [("Content-Type", "application/json"), ("MCP-Version", "0.6")] }, ctx)
      else if !(envelopeOk body) then
        .ok (createErrorResponse (-32700) "Parse error" requestId none none none, ctx)
      else
        match validateRequest body with
        | .error msg => .error { msg := msg, requestId := requestId, sessionId := sessionId }
        | .ok req => .ok (afterValidate h req sessionId)

/-- `handle_request` with the final `current_session_id` context value made
explicit: the top-level `except` renders any escaped exception as a generic
-32000 envelope with the best-effort id and session id
(mcp_lambda_handler.py lines 526-528), and the `finally` clause clears the
context binding on every exit path (line 531). -/
def handleRequestWithCtx (h : Handler) (e : Event) : Response × Option String :=
  let r :=
    match handleRequestCore h e with
    | .ok pair => pair.1
    | .error err => createErrorResponse (-32000) err.msg err.requestId none err.sessionId none
  (r, none)

/-- `MCPLambdaHandler.handle_request` (mcp_lambda_handler.py lines 366-531). -/
def handleRequest (h : Handler) (e : Event) : Response :=
  (handleRequestWithCtx h e).1


/-- Lookup of the set key after the replace-in-place branch of `dictSet`. -/
theorem dictGet_mapReplace_self {α : Type} (k : String) (v : α) :
    ∀ d : List (String × α), (d.any fun kv => kv.1 == k) = true →
      dictGet (d.map (fun kv => if kv.1 == k then (k, v) else kv)) k = some v := by
  intro d
  induction d with
  | nil => intro h; simp at h
  | cons kv rest ih =>
    intro h
    rw [List.map_cons]
    by_cases hk : (kv.1 == k) = true
    · rw [if_pos hk]
      simp [dictGet]
    · rw [if_neg hk]
      simp only [List.any_cons] at h
      rcases Bool.or_eq_true_iff.mp h with h1 | h1
      · exact absurd h1 hk
      · simp only [dictGet, hk, Bool.false_eq_true, if_false]
        exact ih h1

/-- Lookup of the set key after the append branch of `dictSet`. -/
theorem dictGet_appendSingle_self {α : Type} (k : String) (v : α) :
    ∀ d : List (String × α), (d.any fun kv => kv.1 == k) = false →
      dictGet (d ++ [(k, v)]) k = some v := by
  intro d
  induction d with
  | nil => simp [dictGet]
  | cons kv rest ih =>
    intro h
    simp only [List.any_cons, Bool.or_eq_false_iff] at h
    simp only [List.cons_append, dictGet, h.1, Bool.false_eq_true, if_false]
    exact ih h.2

/-- Looking up the key just written by `dictSet`. -/
theorem dictGet_dictSet_self {α : Type} (d : List (String × α)) (k : String) (v : α) :
    dictGet (dictSet d k v) k = some v := by
  rw [dictSet]
  by_cases hany : (d.any fun kv => kv.1 == k) = true
  · rw [if_pos hany]
    exact dictGet_mapReplace_self k v d hany
  · rw [if_neg hany]
    exact dictGet_appendSingle_self k v d (Bool.not_eq_true _ |>.mp hany)

/-- The replace-in-place branch of `dictSet` leaves other lookups unchanged. -/
theorem dictGet_mapReplace_ne {α : Type} (k k' : String) (v : α) (hne : ¬ k' = k) :
    ∀ d : List (String × α),
      dictGet (d.map (fun kv => if kv.1 == k then (k, v) else kv)) k' = dictGet d k' := by
  have hkk : (k == k') = false := beq_eq_false_iff_ne.mpr (fun h => hne h.symm)
  intro d
  induction d with
  | nil => rfl
  | cons kv rest ih =>
    rw [List.map_cons]
    by_cases hk : (kv.1 == k) = true
    · have hk1 : kv.1 = k := by simpa using hk
      rw [if_pos hk]
      have hv : (kv.1 == k') = false := by rw [hk1]; exact hkk
      simp only [dictGet, hkk, hv, Bool.false_eq_true, if_false]
      exact ih
    · rw [if_neg hk]
      by_cases h2 : (kv.1 == k') = true
      · simp [dictGet, h2]
      · simp only [dictGet, h2, Bool.false_eq_true, if_false] at *
        simpa [h2] using ih

/-- The append branch of `dictSet` leaves other lookups unchanged. -/
theorem dictGet_appendSingle_ne {α : Type} (k k' : String) (v : α) (hne : ¬ k' = k) :
    ∀ d : List (String × α), dictGet (d ++ [(k, v)]) k' = dictGet d k' := by
  have hkk : (k == k') = false := beq_eq_false_iff_ne.mpr (fun h => hne h.symm)
  intro d
  induction d with
  | nil => simp [dictGet, hkk]
  | cons kv rest ih =>
    by_cases h2 : (kv.1 == k') = true
    · simp [dictGet, h2]
    · simp only [List.cons_append, dictGet, h2, Bool.false_eq_true, if_false]
      exact ih

/-- `dictSet` leaves lookups of other keys unchanged. -/
theorem dictGet_dictSet_ne {α : Type} (d : List (String × α)) (k k' : String)
    (v : α) (hne : ¬ k' = k) :
    dictGet (dictSet d k v) k' = dictGet d k' := by
  rw [dictSet]
  by_cases hany : (d.any fun kv => kv.1 == k) = true
  · rw [if_pos hany]; exact dictGet_mapReplace_ne k k' v hne d
  · rw [if_neg hany]; exact dictGet_appendSingle_ne k k' v hne d

/-- `dictSet` leaves membership of other keys unchanged. -/
theorem hasKey_dictSet_ne {α : Type} (d : List (String × α)) (k k' : String)
    (v : α) (hne : ¬ k' = k) :
    hasKey (dictSet d k v) k' = hasKey d k' := by
  unfold hasKey
  rw [dictGet_dictSet_ne d k k' v hne]

/-- An event that reaches request dispatch: not a session-deletion request,
correct content type, a parsed body that is not a notification, a valid
envelope, and a successfully validated request.  Under these conditions
`handle_request` returns exactly what the post-validation method handling
returns. -/
theorem handleRequest_eq_afterValidate (h : Handler) (e : Event) (j : JSON)
    (req : JSONRPCRequest)
    (hdel : (e.httpMethod == some "DELETE" && truthyOpt (extractSessionId e)) = false)
    (hct : contentTypeOf e = some "application/json")
    (hb : e.body = .parsed j)
    (hnotif : isNotification j = false)
    (henv : envelopeOk j = true)
    (hval : validateRequest j = .ok req) :
    handleRequest h e = (afterValidate h req (extractSessionId e)).1 := by
  unfold handleRequest handleRequestWithCtx handleRequestCore
  simp only [hdel, hct, hb, hnotif, henv, hval, beq_self_eq_true, Bool.not_true,
    Bool.false_eq_true, if_false]

/-- The session precondition of a non-`initialize` request is satisfied:
either a session id was supplied and the store knows it, or no id was
supplied and the store is the no-op variant. -/
def sessionPreconditionOk (h : Handler) (sid : Option String) : Prop :=
  (truthyOpt sid = true ∧ ∃ d, h.store.getSession (sid.getD "") = some d) ∨
  (truthyOpt sid = false ∧ h.store.isNoOp = true)

/-- For a non-`initialize` request whose session precondition is satisfied,
the post-validation handling is exactly method dispatch. -/
theorem afterValidate_eq_dispatch (h : Handler) (req : JSONRPCRequest)
    (sid : Option String)
    (hm : (req.method == "initialize") = false)
    (hs : sessionPreconditionOk h sid) :
    (afterValidate h req sid).1 = dispatchMethod h req sid := by
  unfold afterValidate
  rcases hs with ⟨ht, d, hd⟩ | ⟨ht, hn⟩
  · simp only [hm, ht, hd, Bool.false_eq_true, if_false, if_true]
  · simp only [hm, ht, hn, Bool.false_eq_true, if_false, Bool.not_true,
      Bool.and_false, if_true]

/-- Combined reachability: a dispatchable non-`initialize` request with its
session precondition satisfied is answered by method dispatch. -/
theorem handleRequest_eq_dispatch (h : Handler) (e : Event) (j : JSON)
    (req : JSONRPCRequest)
    (hdel : (e.httpMethod == some "DELETE" && truthyOpt (extractSessionId e)) = false)
    (hct : contentTypeOf e = some "application/json")
    (hb : e.body = .parsed j)
    (hnotif : isNotification j = false)
    (henv : envelopeOk j = true)
    (hval : validateRequest j = .ok req)
    (hm : (req.method == "initialize") = false)
    (hs : sessionPreconditionOk h (extractSessionId e)) :
    handleRequest h e = dispatchMethod h req (extractSessionId e) := by
  rw [handleRequest_eq_afterValidate h e j req hdel hct hb hnotif henv hval]
  exact afterValidate_eq_dispatch h req (extractSessionId e) hm hs

/-- Claim-side read-only classification, following the claim's words: the
tool's name begins with one of the fixed verbs (a case-sensitive prefix
test, since the verbs are literal lowercase words). -/
def startsWithReadOnlyVerb (n : String) : Bool :=
  readOnlyVerbList.any (fun v => v.data.isPrefixOf n.data)

/-- C2: the external tool name of a registered function is the deterministic
pure function of its identifier that splits on underscores, keeps the first
segment, and capitalizes each later segment; that same name is the key of
both registries (hence the `tools/call` lookup key), the `name` field of the
stored descriptor (hence the name advertised by `tools/list`, which renders
`self.tools.values()`), and re-registration under the same identifier lands
on the same name and key. -/
theorem claim_C2_tool_name_derivation (h : Handler) (f : PyFunc) :
    dictGet (registerTool h f).tools (deriveToolName f.name) = some (buildSchema f) ∧
    dictGet (registerTool h f).impls (deriveToolName f.name) = some f ∧
    (buildSchema f).name = deriveToolName f.name ∧
    (∃ kvs, schemaToJSON (buildSchema f) = JSON.obj kvs ∧
      dictGet kvs "name" = some (JSON.str (deriveToolName f.name))) ∧
    dictGet (registerTool (registerTool h f) f).tools (deriveToolName f.name) =
      some (buildSchema f) ∧
    deriveToolName "list_workflows" = "listWorkflows" := by
  refine ⟨?_, ?_, rfl, ⟨_, rfl, rfl⟩, ?_, rfl⟩
  · exact dictGet_dictSet_self h.tools (deriveToolName f.name) (buildSchema f)
  · exact dictGet_dictSet_self h.impls (deriveToolName f.name) f
  · exact dictGet_dictSet_self _ (deriveToolName f.name) (buildSchema f)

/-- A function whose identifier has an uppercase first segment: the derived
tool name is `LISTX`, which the classifier lowercases before the prefix
test. -/
def listUpperFunc : PyFunc :=
  { name := "LIST_x", doc := "", params := [], run := fun _ => .ok (.value "") }

/-- C7 counterexample: the tool registered for identifier `LIST_x` gets
`readOnlyHint = true`, although its name `LISTX` does not begin with any of
the verbs `list, get, ...` — the code tests the lowercased name, so the
claim's iff fails as stated. -/
theorem claim_C7_counterexample :
    (buildSchema listUpperFunc).readOnlyHint = true ∧
    startsWithReadOnlyVerb (buildSchema listUpperFunc).name = false :=
  ⟨rfl, rfl⟩

/-- Example functions for the four identifiers named by the claim. -/
def listXFunc : PyFunc :=
  { name := "list_x", doc := "", params := [], run := fun _ => .ok (.value "") }

/-- Example function `start_x`. -/
def startXFunc : PyFunc :=
  { name := "start_x", doc := "", params := [], run := fun _ => .ok (.value "") }

/-- Example function `cancel_x`. -/
def cancelXFunc : PyFunc :=
  { name := "cancel_x", doc := "", params := [], run := fun _ => .ok (.value "") }

/-- Example function `tail_x`. -/
def tailXFunc : PyFunc :=
  { name := "tail_x", doc := "", params := [], run := fun _ => .ok (.value "") }

/-- C7 (amended): `annotations.readOnlyHint` is true iff the tool's name,
lowercased, begins with one of the prefixes `list, get, search, tail, count,
check, validate, discover, analyze, diagnose, lint`; in particular the tools
derived from `list_x`, `start_x`, `cancel_x`, `tail_x` get hints
true, false, false, true. -/
theorem claim_C7_read_only_classification :
    (∀ f : PyFunc, (buildSchema f).readOnlyHint =
      startsWithReadOnlyVerb (pyLowerStr (buildSchema f).name)) ∧
    (buildSchema listXFunc).readOnlyHint = true ∧
    (buildSchema startXFunc).readOnlyHint = false ∧
    (buildSchema cancelXFunc).readOnlyHint = false ∧
    (buildSchema tailXFunc).readOnlyHint = true :=
  ⟨fun _ => rfl, rfl, rfl, rfl, rfl⟩

/-- A handler whose store reports successful deletion, for the C3
counterexample. -/
def c3Handler : Handler :=
  { name := "srv", version := "1.0.0", tools := [], impls := [],
    store := { isNoOp := false, createdId := "sid", getSession := fun _ => some [],
               deleteSession := fun _ => true } }

/-- A DELETE event with a session-id header, correct content type, and a
parsed JSON body with no `id` field. -/
def c3Event : Event :=
  { headers := [("Content-Type", "application/json"), ("MCP-Session-Id", "abc")],
    httpMethod := some "DELETE",
    body := .parsed (.obj [("jsonrpc", .str "2.0"), ("method", .str "ping")]) }

/-- C3 counterexample: an event with the correct content type whose body
parses as JSON without an `id` field is answered with a bare 204 (the
session-deletion short-circuit runs before body parsing), not with the
claimed 202 notification response. -/
theorem claim_C3_counterexample :
    handleRequest c3Handler c3Event =
      { statusCode := 204, body := none, headers := none } ∧
    ¬ (handleRequest c3Handler c3Event).statusCode = 202 :=
  ⟨rfl, by decide⟩

/-- C3 (amended): for every request event that is not a session-deletion
request (HTTP method `DELETE` with a truthy session-id header), with the
correct content type, whose body parses as a JSON object with no `id`
field, `handle_request` returns HTTP 202 with an empty body — a constant
response independent of the handler, so no method handler and no registered
tool is consulted — regardless of the `method` value or envelope
validity. -/
theorem claim_C3_notification_202 (h : Handler) (e : Event)
    (kvs : List (String × JSON))
    (hdel : (e.httpMethod == some "DELETE" && truthyOpt (extractSessionId e)) = false)
    (hct : contentTypeOf e = some "application/json")
    (hb : e.body = .parsed (.obj kvs))
    (hnoid : hasKey kvs "id" = false) :
    handleRequest h e =
      { statusCode := 202, body := some .empty,
        headers := some [("Content-Type", "application/json"), ("MCP-Version", "0.6")] } := by
  unfold handleRequest handleRequestWithCtx handleRequestCore
  simp only [hdel, hct, hb, Bool.false_eq_true, if_false, beq_self_eq_true,
    Bool.not_true, isNotification, hnoid, Bool.not_false, if_true]

/-- An event exercising the amended C3: a `DELETE`-free request whose body
is an object without `id` and with an arbitrary invalid method field. -/
def c3OkEvent : Event :=
  { headers := [("Content-Type", "application/json")],
    httpMethod := some "POST",
    body := .parsed (.obj [("method", .num 7)]) }

/-- C3 witness: the amended theorem applied at a concrete notification-style
event. -/
theorem claim_C3_notification_202_witness :
    handleRequest c3Handler c3OkEvent =
      { statusCode := 202, body := some .empty,
        headers := some [("Content-Type", "application/json"), ("MCP-Version", "0.6")] } :=
  claim_C3_notification_202 c3Handler c3OkEvent [("method", .num 7)] rfl rfl rfl rfl

/-- C9: on every exit path the request-scoped session binding is cleared
(`finally: current_session_id.set(None)`), the returned response is total
(no exception escapes the model of `handle_request`), and any exception the
`try` body does not handle itself is rendered by the top-level handler as a
code -32000 envelope carrying the best-effort request id and session id. -/
theorem claim_C9_cleanup_and_top_level_catch (h : Handler) (e : Event) :
    (handleRequestWithCtx h e).2 = none ∧
    handleRequest h e = (handleRequestWithCtx h e).1 ∧
    (∀ msg rid sid,
      handleRequestCore h e = .error { msg := msg, requestId := rid, sessionId := sid } →
      handleRequest h e = createErrorResponse (-32000) msg rid none sid none) := by
  refine ⟨rfl, rfl, ?_⟩
  intro msg rid sid hcore
  unfold handleRequest handleRequestWithCtx
  rw [hcore]

/-- A plain handler for the C9 witness. -/
def c9Handler : Handler :=
  { name := "srv", version := "1.0.0", tools := [], impls := [],
    store := noOpSessionStore }

/-- An event whose body key is absent: `event['body']` raises `KeyError`,
which only the top-level handler catches. -/
def c9Event : Event :=
  { headers := [("Content-Type", "application/json"), ("mcp-session-id", "s9")],
    httpMethod := some "POST",
    body := .missing }

/-- C9 witness: the theorem applied at a concrete event whose missing body
raises, checking the -32000 envelope with the extracted session id. -/
theorem claim_C9_witness :
    (handleRequestWithCtx c9Handler c9Event).2 = none ∧
    handleRequest c9Handler c9Event =
      createErrorResponse (-32000) "\x27body\x27" .null none (some "s9") none :=
  ⟨(claim_C9_cleanup_and_top_level_catch c9Handler c9Event).1,
   (claim_C9_cleanup_and_top_level_catch c9Handler c9Event).2.2 "\x27body\x27" .null
     (some "s9") rfl⟩

/-- C4: for a dispatchable, valid JSON-RPC request whose method is not
`initialize`: (i) a supplied session id the store does not know yields the
-32000 "Invalid or expired session" envelope with HTTP 404; (ii) a missing
session id against a store that is not the no-op variant yields the -32000
"Session required" envelope with HTTP 400; (iii) a missing session id
against the no-op variant proceeds straight to method dispatch.  A
supplied-but-empty header value is falsy in Python and counts as not
supplied. -/
theorem claim_C4_session_gate (h : Handler) (e : Event) (j : JSON)
    (req : JSONRPCRequest)
    (hdel : (e.httpMethod == some "DELETE" && truthyOpt (extractSessionId e)) = false)
    (hct : contentTypeOf e = some "application/json")
    (hb : e.body = .parsed j)
    (hnotif : isNotification j = false)
    (henv : envelopeOk j = true)
    (hval : validateRequest j = .ok req)
    (hm : (req.method == "initialize") = false) :
    (truthyOpt (extractSessionId e) = true →
      h.store.getSession ((extractSessionId e).getD "") = none →
      handleRequest h e =
        createErrorResponse (-32000) "Invalid or expired session" req.id
          none none (some 404) ∧
      (handleRequest h e).statusCode = 404) ∧
    (truthyOpt (extractSessionId e) = false → h.store.isNoOp = false →
      handleRequest h e =
        createErrorResponse (-32000) "Session required" req.id
          none none (some 400) ∧
      (handleRequest h e).statusCode = 400) ∧
    (truthyOpt (extractSessionId e) = false → h.store.isNoOp = true →
      handleRequest h e = dispatchMethod h req (extractSessionId e)) := by
  have hav := handleRequest_eq_afterValidate h e j req hdel hct hb hnotif henv hval
  refine ⟨?_, ?_, ?_⟩
  · intro ht hnone
    have : handleRequest h e =
        createErrorResponse (-32000) "Invalid or expired session" req.id
          none none (some 404) := by
      rw [hav]
      unfold afterValidate
      simp only [hm, ht, hnone, Bool.false_eq_true, if_false, if_true]
    refine ⟨this, ?_⟩
    rw [this]
    rfl
  · intro ht hstore
    have : handleRequest h e =
        createErrorResponse (-32000) "Session required" req.id
          none none (some 400) := by
      rw [hav]
      unfold afterValidate
      simp only [hm, ht, hstore, Bool.false_eq_true, if_false, Bool.not_false,
        Bool.true_and, Bool.and_true, if_true]
    refine ⟨this, ?_⟩
    rw [this]
    rfl
  · intro ht hnoop
    rw [hav]
    exact afterValidate_eq_dispatch h req (extractSessionId e) hm (Or.inr ⟨ht, hnoop⟩)

/-- A session-enforcing store that knows no session, for the C4 witness. -/
def c4Handler : Handler :=
  { name := "srv", version := "1.0.0", tools := [], impls := [],
    store := { isNoOp := false, createdId := "n", getSession := fun _ => none,
               deleteSession := fun _ => false } }

/-- A valid `tools/list` request with no session header. -/
def c4Event : Event :=
  { headers := [("Content-Type", "application/json")],
    httpMethod := some "POST",
    body := .parsed (.obj
      [("jsonrpc", .str "2.0"), ("id", .str "4"), ("method", .str "tools/list")]) }

/-- C4 witness: the theorem applied at a concrete sessionless request
against an enforcing store, exercising branch (ii). -/
theorem claim_C4_witness :
    handleRequest c4Handler c4Event =
      createErrorResponse (-32000) "Session required" (.str "4") none none (some 400) ∧
    (handleRequest c4Handler c4Event).statusCode = 400 :=
  (claim_C4_session_gate c4Handler c4Event
    (.obj [("jsonrpc", .str "2.0"), ("id", .str "4"), ("method", .str "tools/list")])
    { id := .str "4", method := "tools/list", params := none }
    rfl rfl rfl rfl rfl rfl rfl).2.1 rfl rfl

/-- A `tools/call` request with truthy params resolving to a registered tool
reaches the guarded invocation with the supplied (or defaulted-empty)
arguments. -/
theorem dispatch_tools_call_resolved (h : Handler) (req : JSONRPCRequest)
    (sid : Option String) (ps : List (String × JSON)) (s : String) (f : PyFunc)
    (hm : req.method = "tools/call")
    (hp : req.params = some ps) (hpne : ps ≠ [])
    (hname : dictGet ps "name" = some (.str s))
    (htool : hasKey h.tools s = true)
    (himpl : dictGet h.impls s = some f) :
    dispatchMethod h req sid =
      callTool f ((dictGet ps "arguments").getD (.obj [])) req.id sid := by
  obtain ⟨a, l, rfl⟩ : ∃ a l, ps = a :: l := by
    cases ps with
    | nil => exact absurd rfl hpne
    | cons a l => exact ⟨a, l, rfl⟩
  unfold dispatchMethod
  rw [hm, hp]
  simp only [paramsTruthy, hname, htool, himpl, Option.getD_some,
    show (("tools/call" : String) == "tools/list") = false from rfl,
    beq_self_eq_true, Bool.true_and, Bool.and_true, Bool.false_eq_true,
    if_false, if_true]

/-- A `tools/call` request with truthy params naming an unregistered tool is
answered with the -32601 tool-not-found envelope. -/
theorem dispatch_tools_call_unknown (h : Handler) (req : JSONRPCRequest)
    (sid : Option String) (ps : List (String × JSON)) (s : String)
    (hm : req.method = "tools/call")
    (hp : req.params = some ps) (hpne : ps ≠ [])
    (hname : dictGet ps "name" = some (.str s))
    (htool : hasKey h.tools s = false) :
    dispatchMethod h req sid =
      createErrorResponse (-32601) ("Tool \x27" ++ s ++ "\x27 not found")
        req.id none sid none := by
  obtain ⟨a, l, rfl⟩ : ∃ a l, ps = a :: l := by
    cases ps with
    | nil => exact absurd rfl hpne
    | cons a l => exact ⟨a, l, rfl⟩
  unfold dispatchMethod
  rw [hm, hp]
  simp only [paramsTruthy, hname, htool, Option.getD_some,
    show (("tools/call" : String) == "tools/list") = false from rfl,
    beq_self_eq_true, Bool.true_and, Bool.and_true, Bool.false_eq_true,
    if_false, if_true]

/-- A prepared, successful, fully awaited invocation produces the 200
success envelope wrapping the stringified result. -/
theorem callTool_success (f : PyFunc) (toolArgs : JSON) (rid : JSON)
    (sid : Option String) (conv : List (String × PyVal)) (res : PyResult)
    (out : String)
    (hprep : prepareCallArgs f toolArgs = .ok conv)
    (hrun : f.run conv = .ok res)
    (hres : resolveResult res = .ok out) :
    callTool f toolArgs rid sid =
      createSuccessResponse (.obj [("content", .arr [textContentJSON out])])
        rid sid := by
  unfold callTool
  simp only [hprep, hrun, hres]

/-- C5: a dispatchable `tools/call` request (truthy params, session
precondition satisfied) whose `params.name` is a string that is not a key of
the tool registry is answered with code -32601, HTTP 404, and a message that
names the missing tool. -/
theorem claim_C5_unknown_tool (h : Handler) (e : Event) (j : JSON)
    (req : JSONRPCRequest) (ps : List (String × JSON)) (s : String)
    (hdel : (e.httpMethod == some "DELETE" && truthyOpt (extractSessionId e)) = false)
    (hct : contentTypeOf e = some "application/json")
    (hb : e.body = .parsed j)
    (hnotif : isNotification j = false)
    (henv : envelopeOk j = true)
    (hval : validateRequest j = .ok req)
    (hm : req.method = "tools/call")
    (hs : sessionPreconditionOk h (extractSessionId e))
    (hp : req.params = some ps) (hpne : ps ≠ [])
    (hname : dictGet ps "name" = some (.str s))
    (htool : hasKey h.tools s = false) :
    handleRequest h e =
      createErrorResponse (-32601) ("Tool \x27" ++ s ++ "\x27 not found")
        req.id none (extractSessionId e) none ∧
    (handleRequest h e).statusCode = 404 := by
  have hmain : handleRequest h e =
      createErrorResponse (-32601) ("Tool \x27" ++ s ++ "\x27 not found")
        req.id none (extractSessionId e) none := by
    rw [handleRequest_eq_dispatch h e j req hdel hct hb hnotif henv hval
      (by rw [hm]; rfl) hs]
    exact dispatch_tools_call_unknown h req (extractSessionId e) ps s hm hp hpne
      hname htool
  refine ⟨hmain, ?_⟩
  rw [hmain]
  rfl

/-- Handler for the C5 witness: one registered tool, no-op session store. -/
def c5Handler : Handler :=
  registerTool
    { name := "srv", version := "1.0.0", tools := [], impls := [],
      store := noOpSessionStore }
    listXFunc

/-- A `tools/call` event naming an unregistered tool. -/
def c5Event : Event :=
  { headers := [("Content-Type", "application/json")],
    httpMethod := some "POST",
    body := .parsed (.obj
      [("jsonrpc", .str "2.0"), ("id", .str "5"), ("method", .str "tools/call"),
       ("params", .obj [("name", .str "nope")])]) }

/-- C5 witness: the theorem applied at a concrete unknown-tool call. -/
theorem claim_C5_witness :
    handleRequest c5Handler c5Event =
      createErrorResponse (-32601) ("Tool \x27" ++ "nope" ++ "\x27 not found")
        (.str "5") none none none ∧
    (handleRequest c5Handler c5Event).statusCode = 404 :=
  claim_C5_unknown_tool c5Handler c5Event
    (.obj [("jsonrpc", .str "2.0"), ("id", .str "5"), ("method", .str "tools/call"),
      ("params", .obj [("name", .str "nope")])])
    { id := .str "5", method := "tools/call", params := some [("name", .str "nope")] }
    [("name", .str "nope")] "nope"
    rfl rfl rfl rfl rfl rfl rfl (Or.inr ⟨rfl, rfl⟩) rfl (List.cons_ne_nil _ _) rfl rfl

/-- C10: a dispatchable `tools/call` request (session precondition
satisfied) whose params are absent, null, or the empty object falls through
the `tools/call` branch guard and is answered by the unknown-method
fallback: code -32601, message `Method not found: tools/call`, HTTP 404 —
not an invalid-params error. -/
theorem claim_C10_empty_params_method_not_found (h : Handler) (e : Event)
    (j : JSON) (req : JSONRPCRequest)
    (hdel : (e.httpMethod == some "DELETE" && truthyOpt (extractSessionId e)) = false)
    (hct : contentTypeOf e = some "application/json")
    (hb : e.body = .parsed j)
    (hnotif : isNotification j = false)
    (henv : envelopeOk j = true)
    (hval : validateRequest j = .ok req)
    (hm : req.method = "tools/call")
    (hs : sessionPreconditionOk h (extractSessionId e))
    (hp : req.params = none ∨ req.params = some []) :
    handleRequest h e =
      createErrorResponse (-32601) "Method not found: tools/call"
        req.id none (extractSessionId e) none ∧
    (handleRequest h e).statusCode = 404 := by
  have hmain : handleRequest h e =
      createErrorResponse (-32601) "Method not found: tools/call"
        req.id none (extractSessionId e) none := by
    rw [handleRequest_eq_dispatch h e j req hdel hct hb hnotif henv hval
      (by rw [hm]; rfl) hs]
    unfold dispatchMethod
    rw [hm]
    rcases hp with hp | hp <;>
    · simp only [hp, paramsTruthy,
        show (("tools/call" : String) == "tools/list") = false from rfl,
        show (("tools/call" : String) == "ping") = false from rfl,
        Bool.and_false, Bool.false_eq_true, if_false]
      rfl
  refine ⟨hmain, ?_⟩
  rw [hmain]
  rfl

/-- A `tools/call` event carrying an empty params object. -/
def c10Event : Event :=
  { headers := [("Content-Type", "application/json")],
    httpMethod := some "POST",
    body := .parsed (.obj
      [("jsonrpc", .str "2.0"), ("id", .str "10"),
       ("method", .str "tools/call"), ("params", .obj [])]) }

/-- Handler for the C10 witness. -/
def c10Handler : Handler :=
  { name := "srv", version := "1.0.0", tools := [], impls := [],
    store := noOpSessionStore }

/-- C10 witness: the theorem applied at a concrete empty-params call. -/
theorem claim_C10_witness :
    handleRequest c10Handler c10Event =
      createErrorResponse (-32601) "Method not found: tools/call"
        (.str "10") none none none ∧
    (handleRequest c10Handler c10Event).statusCode = 404 :=
  claim_C10_empty_params_method_not_found c10Handler c10Event
    (.obj [("jsonrpc", .str "2.0"), ("id", .str "10"),
      ("method", .str "tools/call"), ("params", .obj [])])
    { id := .str "10", method := "tools/call", params := some [] }
    rfl rfl rfl rfl rfl rfl rfl (Or.inr ⟨rfl, rfl⟩) (Or.inr rfl)

/-- C1: a dispatchable `tools/call` request (session precondition satisfied)
naming a registered tool, whose argument preparation succeeds and whose
callable returns successfully, is answered with HTTP 200 and a success
envelope whose content is the single item `{type: "text", text: out}` where
`out` is the stringification of the fully awaited return value; in
particular, when the callable returned an awaitable, `out` is the string of
the value that awaitable resolved to, never a pending placeholder. -/
theorem claim_C1_tools_call_roundtrip (h : Handler) (e : Event) (j : JSON)
    (req : JSONRPCRequest) (ps : List (String × JSON)) (s : String) (f : PyFunc)
    (conv : List (String × PyVal)) (res : PyResult) (out : String)
    (hdel : (e.httpMethod == some "DELETE" && truthyOpt (extractSessionId e)) = false)
    (hct : contentTypeOf e = some "application/json")
    (hb : e.body = .parsed j)
    (hnotif : isNotification j = false)
    (henv : envelopeOk j = true)
    (hval : validateRequest j = .ok req)
    (hm : req.method = "tools/call")
    (hs : sessionPreconditionOk h (extractSessionId e))
    (hp : req.params = some ps) (hpne : ps ≠ [])
    (hname : dictGet ps "name" = some (.str s))
    (htool : hasKey h.tools s = true)
    (himpl : dictGet h.impls s = some f)
    (hprep : prepareCallArgs f ((dictGet ps "arguments").getD (.obj [])) = .ok conv)
    (hrun : f.run conv = .ok res)
    (hres : resolveResult res = .ok out) :
    handleRequest h e =
      createSuccessResponse (.obj [("content", .arr [textContentJSON out])])
        req.id (extractSessionId e) ∧
    (handleRequest h e).statusCode = 200 ∧
    (∀ t, res = .awaitable t → t = .ok out) := by
  have hmain : handleRequest h e =
      createSuccessResponse (.obj [("content", .arr [textContentJSON out])])
        req.id (extractSessionId e) := by
    rw [handleRequest_eq_dispatch h e j req hdel hct hb hnotif henv hval
      (by rw [hm]; rfl) hs]
    rw [dispatch_tools_call_resolved h req (extractSessionId e) ps s f hm hp hpne
      hname htool himpl]
    exact callTool_success f _ req.id (extractSessionId e) conv res out hprep hrun hres
  refine ⟨hmain, by rw [hmain]; rfl, ?_⟩
  intro t ht
  rw [ht] at hres
  cases t with
  | ok v =>
    simp only [resolveResult, Except.ok.injEq] at hres
    rw [hres]
  | error msg => cases hres

/-- An asynchronous tool for the C1 witness: its invocation returns an
awaitable that resolves to a value whose `str()` is `"42"`. -/
def asyncAnswerFunc : PyFunc :=
  { name := "get_answer", doc := "Get the answer.", params := [],
    run := fun _ => .ok (.awaitable (.ok "42")) }

/-- Handler for the C1 witness: the async tool registered under
`getAnswer`, no-op session store. -/
def c1Handler : Handler :=
  registerTool
    { name := "srv", version := "1.0.0", tools := [], impls := [],
      store := noOpSessionStore }
    asyncAnswerFunc

/-- A valid `tools/call` event naming the registered async tool. -/
def c1Event : Event :=
  { headers := [("Content-Type", "application/json")],
    httpMethod := some "POST",
    body := .parsed (.obj
      [("jsonrpc", .str "2.0"), ("id", .str "1"), ("method", .str "tools/call"),
       ("params", .obj [("name", .str "getAnswer"), ("arguments", .obj [])])]) }

/-- C1 witness: the theorem applied at a concrete asynchronous tool call,
yielding 200 and content text `"42"`. -/
theorem claim_C1_witness :
    handleRequest c1Handler c1Event =
      createSuccessResponse (.obj [("content", .arr [textContentJSON "42"])])
        (.str "1") none ∧
    (handleRequest c1Handler c1Event).statusCode = 200 :=
  ⟨(claim_C1_tools_call_roundtrip c1Handler c1Event
      (.obj [("jsonrpc", .str "2.0"), ("id", .str "1"), ("method", .str "tools/call"),
        ("params", .obj [("name", .str "getAnswer"), ("arguments", .obj [])])])
      { id := .str "1", method := "tools/call",
        params := some [("name", .str "getAnswer"), ("arguments", .obj [])] }
      [("name", .str "getAnswer"), ("arguments", .obj [])] "getAnswer"
      asyncAnswerFunc [] (.awaitable (.ok "42")) "42"
      rfl rfl rfl rfl rfl rfl rfl (Or.inr ⟨rfl, rfl⟩) rfl (List.cons_ne_nil _ _)
      rfl rfl rfl rfl rfl rfl).1,
   (claim_C1_tools_call_roundtrip c1Handler c1Event
      (.obj [("jsonrpc", .str "2.0"), ("id", .str "1"), ("method", .str "tools/call"),
        ("params", .obj [("name", .str "getAnswer"), ("arguments", .obj [])])])
      { id := .str "1", method := "tools/call",
        params := some [("name", .str "getAnswer"), ("arguments", .obj [])] }
      [("name", .str "getAnswer"), ("arguments", .obj [])] "getAnswer"
      asyncAnswerFunc [] (.awaitable (.ok "42")) "42"
      rfl rfl rfl rfl rfl rfl rfl (Or.inr ⟨rfl, rfl⟩) rfl (List.cons_ne_nil _ _)
      rfl rfl rfl rfl rfl rfl).2.1⟩

/-- Enum conversion preserves absence of a key that neither the arguments
nor the accumulator contain. -/
theorem convertEnumArgs_hasKey_false (f : PyFunc) (k : String) :
    ∀ (l : List (String × JSON)) (acc conv : List (String × PyVal)),
      convertEnumArgs f l acc = .ok conv →
      hasKey l k = false → hasKey acc k = false → hasKey conv k = false := by
  intro l
  induction l with
  | nil =>
    intro acc conv hconv hl hacc
    simp only [convertEnumArgs] at hconv
    cases hconv
    exact hacc
  | cons nav rest ih =>
    intro acc conv hconv hl hacc
    obtain ⟨an, av⟩ := nav
    have hh' : (an == k) = false := by
      by_contra hh
      have hh2 : (an == k) = true := by simpa using hh
      simp only [hasKey, dictGet, hh2, if_true] at hl
      simp at hl
    have hrest : hasKey rest k = false := by
      simp only [hasKey, dictGet, hh', Bool.false_eq_true, if_false] at hl
      exact hl
    have hne : ¬ k = an := by
      intro hh
      rw [hh, beq_self_eq_true] at hh'
      exact Bool.true_eq_false.mp hh'
    rcases he : isEnumHint (hintOf f an) with _ | cv
    · simp only [convertEnumArgs, he] at hconv
      refine ih _ _ hconv hrest ?_
      rw [hasKey_dictSet_ne acc an k _ hne]
      exact hacc
    · obtain ⟨cls, vs⟩ := cv
      rcases hlu : enumLookup vs av with _ | v
      · simp only [convertEnumArgs, he, hlu] at hconv
        cases hconv
      · simp only [convertEnumArgs, he, hlu] at hconv
        refine ih _ _ hconv hrest ?_
        rw [hasKey_dictSet_ne acc an k _ hne]
        exact hacc

/-- Pydantic-default unwrapping only adds missing keys, so an existing
binding keeps its value. -/
theorem unwrapFieldDefaults_preserves (k : String) (v : PyVal) :
    ∀ (ps : List PyParam) (acc : List (String × PyVal)),
      dictGet acc k = some v →
      dictGet (unwrapFieldDefaults ps acc) k = some v := by
  intro ps
  induction ps with
  | nil =>
    intro acc h
    simpa [unwrapFieldDefaults] using h
  | cons p rest ih =>
    intro acc h
    by_cases hk : hasKey acc p.name = true
    · simp only [unwrapFieldDefaults, hk, if_true]
      exact ih acc h
    · have hne : ¬ k = p.name := by
        intro hh
        apply hk
        unfold hasKey
        rw [← hh, h]
        rfl
      have hk' : hasKey acc p.name = false := by simpa using hk
      simp only [unwrapFieldDefaults, hk', Bool.false_eq_true, if_false]
      cases hd : p.default with
      | empty =>
        simp only [hd]
        exact ih acc h
      | plain v0 =>
        simp only [hd]
        exact ih acc h
      | fieldInfo fr dv =>
        cases fr with
        | some fv =>
          simp only [hd]
          refine ih _ ?_
          rw [dictGet_dictSet_ne acc p.name k _ hne]
          exact h
        | none =>
          cases dv with
          | some dv0 =>
            simp only [hd]
            refine ih _ ?_
            rw [dictGet_dictSet_ne acc p.name k _ hne]
            exact h
          | none =>
            simp only [hd]
            exact ih acc h

/-- When the callable declares `ctx` and the caller did not supply it, the
prepared argument map binds `ctx` to Python `None`. -/
theorem prepareCallArgs_injects_ctx (f : PyFunc) (kvs : List (String × JSON))
    (conv : List (String × PyVal))
    (hdecl : (f.params.any fun p => p.name == "ctx") = true)
    (hnoCtx : hasKey kvs "ctx" = false)
    (hprep : prepareCallArgs f (.obj kvs) = .ok conv) :
    dictGet conv "ctx" = some (.json .null) := by
  simp only [prepareCallArgs] at hprep
  rcases hc : convertEnumArgs f kvs [] with e | conv0
  · simp only [hc] at hprep
    cases hprep
  · simp only [hc] at hprep
    have h0 : hasKey conv0 "ctx" = false :=
      convertEnumArgs_hasKey_false f "ctx" kvs [] conv0 hc hnoCtx rfl
    simp only [hdecl, h0, Bool.not_false, Bool.and_self, if_true,
      Bool.true_and, Except.ok.injEq] at hprep
    rw [← hprep]
    exact unwrapFieldDefaults_preserves "ctx" (.json .null) f.params _
      (dictGet_dictSet_self conv0 "ctx" (.json .null))

/-- The schema property/required loop never records a parameter named `ctx`
when every `ctx` hint is the context capability type. -/
theorem buildPropsReq_no_ctx (f : PyFunc) (argDescs : List (String × String)) :
    ∀ (hl : List (String × PyType)) (acc : List (String × JSON) × List String),
      (∀ t, ("ctx", t) ∈ hl → pyTypeName t = "Context") →
      dictGet acc.1 "ctx" = none → ¬ "ctx" ∈ acc.2 →
      dictGet (buildPropsReq f argDescs hl acc).1 "ctx" = none ∧
      ¬ "ctx" ∈ (buildPropsReq f argDescs hl acc).2 := by
  intro hl
  induction hl with
  | nil =>
    intro acc h1 h2 h3
    exact ⟨h2, h3⟩
  | cons nt rest ih =>
    intro acc h1 h2 h3
    obtain ⟨pname, ptype⟩ := nt
    by_cases hctx : isMcpContextParam pname ptype = true
    · simp only [buildPropsReq, hctx, if_true]
      exact ih acc (fun t ht => h1 t (List.mem_cons_of_mem _ ht)) h2 h3
    · have hpname : ¬ "ctx" = pname := by
        intro hp
        apply hctx
        have hty := h1 ptype (by rw [hp]; exact List.mem_cons_self _ _)
        unfold isMcpContextParam
        rw [← hp, hty]
        rfl
      have hctx' : isMcpContextParam pname ptype = false := by simpa using hctx
      have happ : ¬ "ctx" ∈ acc.2 ++ [pname] := by
        intro hx
        rcases List.mem_append.mp hx with hx | hx
        · exact h3 hx
        · rw [List.mem_singleton] at hx
          exact hpname hx
      simp only [buildPropsReq, hctx', Bool.false_eq_true, if_false]
      apply ih _ (fun t ht => h1 t (List.mem_cons_of_mem _ ht))
      · dsimp only
        rw [dictGet_dictSet_ne acc.1 pname "ctx" _ hpname]
        exact h2
      · dsimp only
        split
        · split
          · exact happ
          · split
            · exact happ
            · exact h3
          · exact h3
        · exact h3

/-- C6: for a callable whose `ctx` parameter is annotated with the context
capability type, (a) the synthesized schema lists `ctx` in neither
`properties` nor `required`, and (b) a dispatchable `tools/call` for that
tool whose arguments do not supply `ctx` still prepares successfully with
`ctx` bound to the injected Python `None`, and succeeds with HTTP 200
whenever the invocation itself succeeds. -/
theorem claim_C6_context_param_excluded_and_injected (h : Handler) (e : Event)
    (j : JSON) (req : JSONRPCRequest) (ps : List (String × JSON)) (s : String)
    (f : PyFunc) (kvs : List (String × JSON)) (conv : List (String × PyVal))
    (hctxAll : ∀ p ∈ f.params, p.name = "ctx" → p.hint = some (.classT "Context"))
    (hdeclB : (f.params.any fun p => p.name == "ctx") = true)
    (hdel : (e.httpMethod == some "DELETE" && truthyOpt (extractSessionId e)) = false)
    (hct : contentTypeOf e = some "application/json")
    (hb : e.body = .parsed j)
    (hnotif : isNotification j = false)
    (henv : envelopeOk j = true)
    (hval : validateRequest j = .ok req)
    (hm : req.method = "tools/call")
    (hs : sessionPreconditionOk h (extractSessionId e))
    (hp : req.params = some ps) (hpne : ps ≠ [])
    (hname : dictGet ps "name" = some (.str s))
    (htool : hasKey h.tools s = true)
    (himpl : dictGet h.impls s = some f)
    (hargs : (dictGet ps "arguments").getD (.obj []) = .obj kvs)
    (hnoCtx : hasKey kvs "ctx" = false)
    (hprep : prepareCallArgs f (.obj kvs) = .ok conv) :
    (dictGet (buildSchema f).properties "ctx" = none ∧
     ¬ "ctx" ∈ (buildSchema f).required) ∧
    dictGet conv "ctx" = some (.json .null) ∧
    (∀ res out, f.run conv = .ok res → resolveResult res = .ok out →
      handleRequest h e =
        createSuccessResponse (.obj [("content", .arr [textContentJSON out])])
          req.id (extractSessionId e) ∧
      (handleRequest h e).statusCode = 200) := by
  refine ⟨?_, ?_, ?_⟩
  · have hhl : ∀ t, ("ctx", t) ∈
        (f.params.filterMap (fun p => p.hint.map (fun t => (p.name, t)))) →
        pyTypeName t = "Context" := by
      intro t ht
      rcases List.mem_filterMap.mp ht with ⟨p, hpmem, hpt⟩
      rcases hh : p.hint with _ | t0
      · rw [hh] at hpt
        cases hpt
      · rw [hh] at hpt
        have hpt2 : (p.name, t0) = ("ctx", t) := by simpa using hpt
        have hn1 : p.name = "ctx" := congrArg Prod.fst hpt2
        have ht1 : t0 = t := congrArg Prod.snd hpt2
        have := hctxAll p hpmem hn1
        rw [hh] at this
        cases this
        rw [← ht1]
        rfl
    exact buildPropsReq_no_ctx f
      (parseArgsBlock (splitOnChar '\n' f.doc.data) false [])
      (f.params.filterMap (fun p => p.hint.map (fun t => (p.name, t))))
      ([], []) hhl rfl (List.not_mem_nil _)
  · exact prepareCallArgs_injects_ctx f kvs conv hdeclB hnoCtx hprep
  · intro res out hrun hres
    have hmain : handleRequest h e =
        createSuccessResponse (.obj [("content", .arr [textContentJSON out])])
          req.id (extractSessionId e) := by
      rw [handleRequest_eq_dispatch h e j req hdel hct hb hnotif henv hval
        (by rw [hm]; rfl) hs]
      rw [dispatch_tools_call_resolved h req (extractSessionId e) ps s f hm hp hpne
        hname htool himpl]
      rw [hargs]
      exact callTool_success f (.obj kvs) req.id (extractSessionId e) conv res out
        hprep hrun hres
    exact ⟨hmain, by rw [hmain]; rfl⟩

/-- A tool callable declaring a context parameter `ctx : Context` and one
ordinary parameter. -/
def ctxToolFunc : PyFunc :=
  { name := "do_it", doc := "Do it.",
    params :=
      [{ name := "ctx", hint := some (.classT "Context"), default := .plain (.json .null) }],
    run := fun _ => .ok (.value "done") }

/-- Handler for the C6 witness. -/
def c6Handler : Handler :=
  registerTool
    { name := "srv", version := "1.0.0", tools := [], impls := [],
      store := noOpSessionStore }
    ctxToolFunc

/-- A `tools/call` event for the context tool that supplies no `ctx`. -/
def c6Event : Event :=
  { headers := [("Content-Type", "application/json")],
    httpMethod := some "POST",
    body := .parsed (.obj
      [("jsonrpc", .str "2.0"), ("id", .str "6"), ("method", .str "tools/call"),
       ("params", .obj [("name", .str "doIt"), ("arguments", .obj [])])]) }

/-- C6 witness: the theorem applied at the concrete context tool, checking
schema exclusion, the injected `ctx = None` binding, and the 200 success. -/
theorem claim_C6_witness :
    (dictGet (buildSchema ctxToolFunc).properties "ctx" = none ∧
     ¬ "ctx" ∈ (buildSchema ctxToolFunc).required) ∧
    dictGet [("ctx", PyVal.json JSON.null)] "ctx" = some (.json .null) ∧
    handleRequest c6Handler c6Event =
      createSuccessResponse (.obj [("content", .arr [textContentJSON "done"])])
        (.str "6") none ∧
    (handleRequest c6Handler c6Event).statusCode = 200 := by
  have happ := claim_C6_context_param_excluded_and_injected c6Handler c6Event
    (.obj [("jsonrpc", .str "2.0"), ("id", .str "6"), ("method", .str "tools/call"),
      ("params", .obj [("name", .str "doIt"), ("arguments", .obj [])])])
    { id := .str "6", method := "tools/call",
      params := some [("name", .str "doIt"), ("arguments", .obj [])] }
    [("name", .str "doIt"), ("arguments", .obj [])] "doIt"
    ctxToolFunc [] [("ctx", PyVal.json JSON.null)]
    (fun p hp _ => by rw [List.mem_singleton.mp hp])
    rfl rfl rfl rfl rfl rfl rfl rfl (Or.inr ⟨rfl, rfl⟩) rfl (List.cons_ne_nil _ _)
    rfl rfl rfl rfl rfl rfl
  exact ⟨happ.1, happ.2.1, happ.2.2 (.value "done") "done" rfl rfl⟩

/-- Decides whether a response carries both the content-type header
`application/json` and the protocol-version header `MCP-Version: 0.6`. -/
def responseHasStdHeaders (r : Response) : Bool :=
  match r.headers with
  | some hs =>
    hs.contains ("Content-Type", "application/json") &&
    hs.contains ("MCP-Version", "0.6")
  | none => false

/-- Any response whose headers are the codec's header dict carries the
standard headers. -/
theorem stdHeaders_of_responseHeaders (r : Response) (sid : Option String)
    (hh : r.headers = some (responseHeaders sid)) :
    responseHasStdHeaders r = true := by
  unfold responseHasStdHeaders
  rw [hh]
  unfold responseHeaders
  rcases sid with _ | s
  · rfl
  · by_cases hs : (s == "") = true
    · simp only [hs, if_true]
      rfl
    · have hs' : (s == "") = false := by simpa using hs
      simp only [hs', Bool.false_eq_true, if_false]
      rfl

/-- Every codec-built error envelope carries the standard headers. -/
theorem stdHeaders_createError (code : Int) (message : String) (requestId : JSON)
    (errorContent : Option (List String)) (sessionId : Option String)
    (statusOverride : Option Int) :
    responseHasStdHeaders
      (createErrorResponse code message requestId errorContent sessionId
        statusOverride) = true := by
  unfold responseHasStdHeaders createErrorResponse responseHeaders
  rcases sessionId with _ | s
  · rfl
  · by_cases hs : (s == "") = true
    · simp only [hs, if_true]
      rfl
    · have hs' : (s == "") = false := by simpa using hs
      simp only [hs', Bool.false_eq_true, if_false]
      rfl

/-- Every codec-built success envelope carries the standard headers. -/
theorem stdHeaders_createSuccess (result : JSON) (requestId : JSON)
    (sessionId : Option String) :
    responseHasStdHeaders (createSuccessResponse result requestId sessionId)
      = true := by
  unfold responseHasStdHeaders createSuccessResponse responseHeaders
  rcases sessionId with _ | s
  · rfl
  · by_cases hs : (s == "") = true
    · simp only [hs, if_true]
      rfl
    · have hs' : (s == "") = false := by simpa using hs
      simp only [hs', Bool.false_eq_true, if_false]
      rfl

/-- The tool-execution error envelope carries the standard headers. -/
theorem stdHeaders_toolExecError (e : String) (rid : JSON)
    (sid : Option String) :
    responseHasStdHeaders (toolExecError e rid sid) = true :=
  stdHeaders_createError _ _ _ _ _ _

/-- Every guarded-invocation outcome carries the standard headers. -/
theorem stdHeaders_callTool (f : PyFunc) (toolArgs : JSON) (rid : JSON)
    (sid : Option String) :
    responseHasStdHeaders (callTool f toolArgs rid sid) = true := by
  unfold callTool
  split
  · apply stdHeaders_toolExecError
  · split
    · apply stdHeaders_toolExecError
    · split
      · apply stdHeaders_toolExecError
      · apply stdHeaders_createSuccess

/-- Every dispatch outcome carries the standard headers. -/
theorem stdHeaders_dispatch (h : Handler) (req : JSONRPCRequest)
    (sid : Option String) :
    responseHasStdHeaders (dispatchMethod h req sid) = true := by
  simp only [dispatchMethod]
  split
  · apply stdHeaders_createSuccess
  · split
    · split
      · split
        · split
          · apply stdHeaders_callTool
          · apply stdHeaders_toolExecError
        · apply stdHeaders_createError
      · apply stdHeaders_createError
    · split
      · apply stdHeaders_createSuccess
      · apply stdHeaders_createError

/-- Every post-validation outcome carries the standard headers. -/
theorem stdHeaders_afterValidate (h : Handler) (req : JSONRPCRequest)
    (sid : Option String) :
    responseHasStdHeaders (afterValidate h req sid).1 = true := by
  simp only [afterValidate]
  split
  · exact stdHeaders_of_responseHeaders _ _ rfl
  · split
    · split
      · exact stdHeaders_of_responseHeaders _ _ rfl
      · apply stdHeaders_dispatch
    · split
      · exact stdHeaders_of_responseHeaders _ _ rfl
      · apply stdHeaders_dispatch

/-- C8 (amended): every response of `handle_request` other than those of
the session-deletion (`DELETE`) branch carries headers including
`Content-Type: application/json` and `MCP-Version: 0.6`. -/
theorem claim_C8_std_headers (h : Handler) (e : Event)
    (hdel : (e.httpMethod == some "DELETE" && truthyOpt (extractSessionId e)) = false) :
    responseHasStdHeaders (handleRequest h e) = true := by
  cases hcore : handleRequestCore h e with
  | error err =>
    simp only [handleRequest, handleRequestWithCtx, hcore]
    apply stdHeaders_createError
  | ok pair =>
    simp only [handleRequest, handleRequestWithCtx, hcore]
    unfold handleRequestCore at hcore
    simp only [hdel, Bool.false_eq_true, if_false] at hcore
    by_cases hct : (contentTypeOf e == some "application/json") = true
    · simp only [hct, Bool.not_true, Bool.false_eq_true, if_false] at hcore
      cases hb : e.body with
      | missing =>
        rw [hb] at hcore
        cases hcore
      | invalid =>
        rw [hb] at hcore
        cases hcore
        exact stdHeaders_of_responseHeaders _ _ rfl
      | parsed body =>
        rw [hb] at hcore
        by_cases hnotif : isNotification body = true
        · simp only [hnotif, if_true] at hcore
          cases hcore
          rfl
        · have hnotif' : isNotification body = false := by simpa using hnotif
          simp only [hnotif', Bool.false_eq_true, if_false] at hcore
          by_cases henv : envelopeOk body = true
          · simp only [henv, Bool.not_true, Bool.false_eq_true, if_false] at hcore
            cases hval : validateRequest body with
            | error msg =>
              rw [hval] at hcore
              cases hcore
            | ok req =>
              rw [hval] at hcore
              cases hcore
              apply stdHeaders_afterValidate
          · have henv' : envelopeOk body = false := by simpa using henv
            simp only [henv', Bool.not_false, if_true] at hcore
            cases hcore
            exact stdHeaders_of_responseHeaders _ _ rfl
    · have hct' : (contentTypeOf e == some "application/json") = false := by
        simpa using hct
      simp only [hct', Bool.not_false, if_true] at hcore
      cases hcore
      exact stdHeaders_of_responseHeaders _ _ rfl

/-- Handler for the C8 counterexample: its store deletes successfully. -/
def c8Handler : Handler :=
  { name := "srv", version := "1.0.0", tools := [], impls := [],
    store := { isNoOp := false, createdId := "sid", getSession := fun _ => some [],
               deleteSession := fun _ => true } }

/-- A session-deletion event. -/
def c8Event : Event :=
  { headers := [("Content-Type", "application/json"), ("MCP-Session-Id", "abc")],
    httpMethod := some "DELETE",
    body := .parsed (.obj []) }

/-- C8 counterexample: the session-deletion branch returns a bare
`{'statusCode': 204}` with no headers key at all, so not every response
carries the content-type and protocol-version headers. -/
theorem claim_C8_counterexample :
    (handleRequest c8Handler c8Event).headers = none ∧
    responseHasStdHeaders (handleRequest c8Handler c8Event) = false :=
  ⟨rfl, rfl⟩

/-- A plain handler for the C8 witness. -/
def c8OkHandler : Handler :=
  { name := "srv", version := "1.0.0", tools := [], impls := [],
    store := noOpSessionStore }

/-- A non-`DELETE` event for the C8 witness. -/
def c8OkEvent : Event :=
  { headers := [("Content-Type", "application/json")],
    httpMethod := some "POST",
    body := .parsed (.obj
      [("jsonrpc", .str "2.0"), ("id", .str "8"), ("method", .str "ping")]) }

/-- C8 witness: the amended theorem applied at a concrete non-deletion
request. -/
theorem claim_C8_witness :
    responseHasStdHeaders (handleRequest c8OkHandler c8OkEvent) = true :=
  claim_C8_std_headers c8OkHandler c8OkEvent rfl
